import Mathlib

/-!
Shallow embedding of the admission-and-runtime core of the synapse-subnet
repository: the module verifier (crates/registrar/src/verification.rs), the
in-memory registry (crates/registrar/src/registry.rs) and the Docker-backed
module runtime (crates/registrar/src/docker.rs), together with the container
backend vocabulary (crates/docker-manager/src/lib.rs).

Machine integers: Rust u16/u32/u64 values appearing here (ports, health-check
nanosecond fields, retries) are embedded as Nat; every operation performed on
them in the embedded code is a comparison or a truncating division, neither of
which can overflow, so no modular reduction is needed.

Rust HashMap / HashSet values are embedded as association lists / lists; set
and map iteration order in the source is unspecified, and the list order here
stands in for one such order.  Theorems that depend on which element an
iteration finds first only ever conclude with an existentially quantified
error payload, so they hold for every iteration order.
-/

instance {ε α : Type _} [DecidableEq ε] [DecidableEq α] : DecidableEq (Except ε α) :=
  fun x y =>
    match x, y with
    | Except.ok a, Except.ok b =>
        if h : a = b then isTrue (congrArg Except.ok h)
        else isFalse (fun hh => h (Except.ok.inj hh))
    | Except.error a, Except.error b =>
        if h : a = b then isTrue (congrArg Except.error h)
        else isFalse (fun hh => h (Except.error.inj hh))
    | Except.ok _, Except.error _ => isFalse (fun hh => Except.noConfusion hh)
    | Except.error _, Except.ok _ => isFalse (fun hh => Except.noConfusion hh)

namespace docker_manager

/-- Error type of the container backend (DockerError in docker-manager).
The bollard wrapper variant carries only its message here. -/
inductive DockerError where
  | Docker (msg : String)
  | ContainerNotFound (name : String)
  | ContainerExists (name : String)
  | InvalidState (msg : String)
  deriving DecidableEq, Repr

/-- Health-check descriptor (HealthCheckConfig in docker-manager).
interval and timeout are u64 nanosecond counts, retries is u32. -/
structure HealthCheckConfig where
  test : List String
  interval : Nat
  timeout : Nat
  retries : Nat
  deriving DecidableEq, Repr

/-- Container states reported by the backend (ContainerState). -/
inductive ContainerState where
  | Created
  | Running
  | Paused
  | Restarting
  | Removing
  | Exited
  | Dead
  deriving DecidableEq, Repr

/-- Backend status record (ContainerStatus). -/
structure ContainerStatus where
  state : ContainerState
  health : Option String
  exit_code : Option Int
  error : Option String
  deriving DecidableEq, Repr

/-- Container creation request (ContainerConfig). -/
structure ContainerConfig where
  name : String
  image : String
  tag : String
  env : Option (List (String × String))
  ports : Option (List (String × String))
  volumes : Option (List (String × String))
  health_check : Option HealthCheckConfig
  deriving DecidableEq

/-- The narrow backend capability set (trait ContainerManager), embedded as a
record of response functions: each field gives the answer the external daemon
returns for the corresponding call.  The embedding treats the backend as an
oracle since its behaviour lives outside this repository. -/
structure ContainerManager where
  create_container : ContainerConfig → Except DockerError Unit
  start_container : String → Except DockerError Unit
  stop_container : String → Except DockerError Unit
  remove_container : String → Except DockerError Unit
  get_container_status : String → Except DockerError ContainerStatus

end docker_manager

namespace registrar

/-- Module lifecycle state as used by docker.rs and described by the data
model (tri-state Stopped / Running / Failed).  Modelled from the spec: this
declaration is consumed by docker.rs but the stale module.rs in the tree
declares an older variant set without Failed. -/
inductive ModuleState where
  | Stopped
  | Running
  | Failed
  deriving DecidableEq, Repr

/-- Module status record as constructed by DockerModuleRuntime.status.
Modelled from the spec together with the docker.rs construction site
(state, container_status, error). -/
structure ModuleStatus where
  state : ModuleState
  container_status : Option docker_manager.ContainerStatus
  error : Option String
  deriving DecidableEq, Repr

/-- Module type tag as consumed by verification.rs and docker.rs:
Docker with full container configuration, or Local with a path. -/
inductive ModuleType where
  | Docker (image : String) (tag : String) (port : Nat)
      (env : Option (List (String × String)))
      (volumes : Option (List (String × String)))
      (health_check : Option docker_manager.HealthCheckConfig)
  | Local (path : String)
  deriving DecidableEq

/-- A module as verified and run (name, type tag, last status). -/
structure Module where
  name : String
  module_type : ModuleType
  status : ModuleStatus
  deriving DecidableEq

/-- Verification error taxonomy (VerificationError in verification.rs). -/
inductive VerificationError where
  | InvalidName (msg : String)
  | InvalidImage (msg : String)
  | InvalidPort (port : Nat)
  | MissingEnvVar (msg : String)
  | InvalidHealthCheck (msg : String)
  | InvalidVolume (msg : String)
  | SecurityCheck (msg : String)
  deriving DecidableEq, Repr

/-- Verification policy (VerificationConfig in verification.rs).  The Rust
HashSet fields become lists; membership is what matters. -/
structure VerificationConfig where
  allowed_registries : List String
  allowed_port_ranges : List (Nat × Nat)
  required_env_vars : List String
  allowed_volume_paths : List String

/-- Default policy (impl Default for VerificationConfig). -/
def VerificationConfig.default : VerificationConfig where
  allowed_registries := ["docker.io", "ghcr.io"]
  allowed_port_ranges := [(1024, 65535)]
  required_env_vars := ["MODULE_NAME", "MODULE_PORT"]
  allowed_volume_paths := ["/data", "/tmp", "/var/log"]

namespace ModuleVerifier

/-- Characters admitted by the name rule:
c.is_ascii_lowercase() || c.is_ascii_digit() || c == the dash. -/
def isNameChar (c : Char) : Bool :=
  (decide (97 ≤ c.toNat) && decide (c.toNat ≤ 122)) ||
  (decide (48 ≤ c.toNat) && decide (c.toNat ≤ 57)) ||
  decide (c.toNat = 45)

/-- verify_name from verification.rs.  Rust name.len() is the byte length;
once every character passed isNameChar the string is pure ASCII, so the
character count used here coincides with it, and when the character check
fails the length branch is never reached. -/
def verify_name (name : String) : Except VerificationError Unit :=
  if !(name.data.all isNameChar) then
    Except.error (VerificationError.InvalidName
      "Name must be lowercase alphanumeric with dashes")
  else if name.length < 3 ∨ name.length > 63 then
    Except.error (VerificationError.InvalidName
      "Name must be between 3 and 63 characters")
  else
    Except.ok ()

/-- Splits a character list on a separator character; the resulting groups
never contain the separator and concatenate with it back to the input. -/
def splitOnChar (sep : Char) : List Char → List (List Char)
  | [] => [[]]
  | c :: rest =>
      if c = sep then [] :: splitOnChar sep rest
      else
        match splitOnChar sep rest with
        | [] => [[c]]
        | g :: gs => (c :: g) :: gs

/-- Returns the characters following the first scheme separator of a URL
style reference, or none when no such separator occurs. -/
def afterSchemeSep : List Char → Option (List Char)
  | [] => none
  | ':' :: '/' :: '/' :: rest => some rest
  | _ :: rest => afterSchemeSep rest

/-- Host extraction of the image reference.  Models the external url crate as
used by verify_docker_image: the image is parsed as a URL (with a docker
scheme prepended when no scheme is present, exactly when the reference has no
scheme separator of its own), and the host is the authority component
stripped of userinfo and port, ASCII-lowercased.  A missing or empty host
yields none, which verify_docker_image maps to InvalidImage just as the
source maps both a parse failure and a missing host. -/
def imageHost (image : String) : Option String :=
  let rest := (afterSchemeSep image.data).getD image.data
  let authority := rest.takeWhile (fun c => c != '/')
  let afterUser := ((splitOnChar '@' authority).getLast?).getD authority
  let host := (afterUser.takeWhile (fun c => c != ':')).map Char.toLower
  if host.isEmpty then none else some (String.mk host)

/-- verify_docker_image from verification.rs: the registry host of the image
must be a member of allowed_registries. -/
def verify_docker_image (cfg : VerificationConfig) (image : String) :
    Except VerificationError Unit :=
  match imageHost image with
  | none => Except.error (VerificationError.InvalidImage "Missing registry")
  | some registry =>
      if cfg.allowed_registries.contains registry then Except.ok ()
      else Except.error (VerificationError.InvalidImage
        ("Registry not allowed: " ++ registry))

/-- verify_port from verification.rs: the port must fall inside at least one
allowed range, endpoints included. -/
def verify_port (cfg : VerificationConfig) (port : Nat) :
    Except VerificationError Unit :=
  if cfg.allowed_port_ranges.any (fun r => decide (r.1 ≤ port) && decide (port ≤ r.2)) then
    Except.ok ()
  else
    Except.error (VerificationError.InvalidPort port)

/-- verify_env_vars from verification.rs: env must be present and contain
every required key; the error names the first missing key found by the
(order-unspecified) set iteration, here the list order. -/
def verify_env_vars (cfg : VerificationConfig)
    (env : Option (List (String × String))) : Except VerificationError Unit :=
  match env with
  | none => Except.error (VerificationError.MissingEnvVar
      "No environment variables defined")
  | some vars =>
      match cfg.required_env_vars.find? (fun v => !(vars.any (fun kv => kv.1 == v))) with
      | some v => Except.error (VerificationError.MissingEnvVar v)
      | none => Except.ok ()

/-- Whether a path string is absolute (leading separator). -/
def isAbsolutePath (s : String) : Bool :=
  match s.data with
  | '/' :: _ => true
  | _ => false

/-- Path components in the sense of the Rust Path type: segments split on the
separator, empty segments dropped. -/
def pathComponents (s : String) : List (List Char) :=
  (splitOnChar '/' s.data).filter (fun c => !c.isEmpty)

/-- Component-wise starts_with of Rust paths: both sides agree on
absoluteness and the base components lead the path components. -/
def pathStartsWith (p base : String) : Bool :=
  (isAbsolutePath p == isAbsolutePath base) &&
  (pathComponents base).isPrefixOf (pathComponents p)

/-- A host path is admissible when some allowed volume root is a path-wise
prelude of it. -/
def hostPathAllowed (cfg : VerificationConfig) (p : String) : Bool :=
  cfg.allowed_volume_paths.any (fun ap => pathStartsWith p ap)

/-- verify_volumes from verification.rs: every volume host path must start
with an allowed root; the error names the first offending entry found by the
(order-unspecified) map iteration, here the list order. -/
def verify_volumes (cfg : VerificationConfig)
    (volumes : Option (List (String × String))) : Except VerificationError Unit :=
  match volumes with
  | none => Except.ok ()
  | some vols =>
      match vols.find? (fun kv => !hostPathAllowed cfg kv.1) with
      | some kv => Except.error (VerificationError.InvalidVolume
          ("Path not allowed: " ++ kv.1))
      | none => Except.ok ()

/-- verify_health_check from verification.rs: the nanosecond interval and
timeout fields are divided by 1e9 (truncating) before the bound checks. -/
def verify_health_check (hc : Option docker_manager.HealthCheckConfig) :
    Except VerificationError Unit :=
  match hc with
  | none => Except.ok ()
  | some h =>
      if h.test.isEmpty then
        Except.error (VerificationError.InvalidHealthCheck
          "Health check test command is empty")
      else
        let interval_secs := h.interval / 1000000000
        let timeout_secs := h.timeout / 1000000000
        if interval_secs < 1 ∨ interval_secs > 300 then
          Except.error (VerificationError.InvalidHealthCheck
            "Health check interval must be between 1 and 300 seconds")
        else if timeout_secs < 1 ∨ timeout_secs > 60 then
          Except.error (VerificationError.InvalidHealthCheck
            "Health check timeout must be between 1 and 60 seconds")
        else if h.retries < 1 ∨ h.retries > 10 then
          Except.error (VerificationError.InvalidHealthCheck
            "Health check retries must be between 1 and 10")
        else
          Except.ok ()

/-- verify_local_path from verification.rs.  The filesystem existence query
is an effect of the verifying host; it is embedded as the parameter fs. -/
def verify_local_path (fs : String → Bool) (path : String) :
    Except VerificationError Unit :=
  if !(isAbsolutePath path) then
    Except.error (VerificationError.InvalidVolume "Path must be absolute")
  else if !(fs path) then
    Except.error (VerificationError.InvalidVolume "Path does not exist")
  else
    Except.ok ()

/-- verify from verification.rs: name check first, then the variant-specific
checks in source order; the first failure is returned. -/
def verify (fs : String → Bool) (cfg : VerificationConfig) (m : Module) :
    Except VerificationError Unit :=
  match verify_name m.name with
  | Except.error e => Except.error e
  | Except.ok () =>
      match m.module_type with
      | ModuleType.Docker image _tag port env volumes health_check =>
          match verify_docker_image cfg image with
          | Except.error e => Except.error e
          | Except.ok () =>
              match verify_port cfg port with
              | Except.error e => Except.error e
              | Except.ok () =>
                  match verify_env_vars cfg env with
                  | Except.error e => Except.error e
                  | Except.ok () =>
                      match verify_volumes cfg volumes with
                      | Except.error e => Except.error e
                      | Except.ok () => verify_health_check health_check
      | ModuleType.Local path => verify_local_path fs path

end ModuleVerifier

namespace module

/-- ModuleType from module.rs, the variant set referenced by registry.rs
(an older sibling of the Docker and Local variant set used above). -/
inductive ModuleType where
  | Docker (image : String) (tag : String) (port : Nat)
  | Native (library_path : String)
  | Python (module_path : String) (requirements_path : Option String)
      (venv_path : Option String)
  deriving DecidableEq, Repr

end module

namespace registry

/-- Module state enumeration declared by registry.rs itself. -/
inductive ModuleState where
  | Running
  | Stopped
  | Error
  deriving DecidableEq, Repr

/-- Module status record declared by registry.rs itself. -/
structure ModuleStatus where
  state : ModuleState
  last_error : Option String
  uptime : Option Nat
  deriving DecidableEq, Repr

/-- Catalog entry of the in-memory registry (ModuleConfig in registry.rs). -/
structure ModuleConfig where
  name : String
  module_type : module.ModuleType
  status : ModuleStatus
  deriving DecidableEq, Repr

/-- ModuleStatus.new from registry.rs. -/
def ModuleStatus.new : ModuleStatus :=
  { state := ModuleState.Stopped, last_error := none, uptime := none }

/-- Registry error taxonomy (RegistryError in registry.rs). -/
inductive RegistryError where
  | ModuleNotFound (name : String)
  | ModuleExists (name : String)
  | InvalidConfig (msg : String)
  | OperationFailed (msg : String)
  deriving DecidableEq, Repr

/-- Lookup in the embedded HashMap (first binding for the key). -/
def mapFind (m : List (String × ModuleConfig)) (k : String) : Option ModuleConfig :=
  match m with
  | [] => none
  | kv :: rest => if kv.1 = k then some kv.2 else mapFind rest k

/-- HashMap insert: replaces the binding for the key when present,
otherwise appends a new binding. -/
def mapInsert (m : List (String × ModuleConfig)) (k : String) (v : ModuleConfig) :
    List (String × ModuleConfig) :=
  match m with
  | [] => [(k, v)]
  | kv :: rest => if kv.1 = k then (k, v) :: rest else kv :: mapInsert rest k v

/-- HashMap remove: drops the binding for the key when present. -/
def mapRemove (m : List (String × ModuleConfig)) (k : String) :
    List (String × ModuleConfig) :=
  match m with
  | [] => []
  | kv :: rest => if kv.1 = k then rest else kv :: mapRemove rest k

/-- The in-memory registry (LocalRegistry in registry.rs): a storage path and
the RwLock-protected name-keyed catalog map.  Mutating operations are
embedded in state-passing style: they return the Rust Result value together
with the catalog state after the call. -/
structure LocalRegistry where
  storage_path : String
  modules : List (String × ModuleConfig)
  deriving DecidableEq

/-- LocalRegistry.new from registry.rs. -/
def LocalRegistry.new (storage_path : String) : LocalRegistry :=
  { storage_path := storage_path, modules := [] }

/-- list_modules from registry.rs: all catalog values, order unspecified. -/
def list_modules (r : LocalRegistry) : Except RegistryError (List ModuleConfig) :=
  Except.ok (r.modules.map (fun kv => kv.2))

/-- get_module from registry.rs. -/
def get_module (r : LocalRegistry) (name : String) :
    Except RegistryError ModuleConfig :=
  match mapFind r.modules name with
  | some c => Except.ok c
  | none => Except.error (RegistryError.ModuleNotFound name)

/-- register_module from registry.rs: duplicate-name check, then insert. -/
def register_module (r : LocalRegistry) (config : ModuleConfig) :
    Except RegistryError Unit × LocalRegistry :=
  match mapFind r.modules config.name with
  | some _ => (Except.error (RegistryError.ModuleExists config.name), r)
  | none => (Except.ok (), { r with modules := mapInsert r.modules config.name config })

/-- update_module from registry.rs: presence check on the name argument,
then insert keyed by the name argument. -/
def update_module (r : LocalRegistry) (name : String) (config : ModuleConfig) :
    Except RegistryError Unit × LocalRegistry :=
  match mapFind r.modules name with
  | none => (Except.error (RegistryError.ModuleNotFound name), r)
  | some _ => (Except.ok (), { r with modules := mapInsert r.modules name config })

/-- remove_module from registry.rs. -/
def remove_module (r : LocalRegistry) (name : String) :
    Except RegistryError Unit × LocalRegistry :=
  match mapFind r.modules name with
  | none => (Except.error (RegistryError.ModuleNotFound name), r)
  | some _ => (Except.ok (), { r with modules := mapRemove r.modules name })

/-- get_module_status from registry.rs: reads the stored entry and returns
its status field. -/
def get_module_status (r : LocalRegistry) (name : String) :
    Except RegistryError ModuleStatus :=
  match get_module r name with
  | Except.ok c => Except.ok c.status
  | Except.error e => Except.error e

end registry

/-- Runtime error taxonomy of docker.rs (DockerRuntimeError). -/
inductive DockerRuntimeError where
  | Docker (e : docker_manager.DockerError)
  | InvalidModuleType
  deriving DecidableEq, Repr

/-- Docker-backed runtime (DockerModuleRuntime in docker.rs): the owned
module and the shared backend handle. -/
structure DockerModuleRuntime where
  module : Module
  manager : docker_manager.ContainerManager

/-- cleanup from docker.rs: issues stop_container then remove_container and
discards both results (the source binds each to the wildcard), always
returning success. -/
def DockerModuleRuntime.cleanup (rt : DockerModuleRuntime) :
    Except DockerRuntimeError Unit :=
  let _ := rt.manager.stop_container rt.module.name
  let _ := rt.manager.remove_container rt.module.name
  Except.ok ()

/-- stop from docker.rs: delegates to cleanup. -/
def DockerModuleRuntime.stop (rt : DockerModuleRuntime) :
    Except DockerRuntimeError Unit :=
  rt.cleanup

/-- status from docker.rs: queries the backend, propagates a query failure
wrapped as a Docker runtime error, and otherwise translates the container
state into the module lifecycle state. -/
def DockerModuleRuntime.status (rt : DockerModuleRuntime) :
    Except DockerRuntimeError ModuleStatus :=
  match rt.manager.get_container_status rt.module.name with
  | Except.error e => Except.error (DockerRuntimeError.Docker e)
  | Except.ok cs =>
      Except.ok
        { state :=
            match cs.state with
            | docker_manager.ContainerState.Running => ModuleState.Running
            | docker_manager.ContainerState.Exited => ModuleState.Failed
            | docker_manager.ContainerState.Dead => ModuleState.Failed
            | _ => ModuleState.Stopped
          container_status := some cs
          error := none }

/-- A Docker module accepted by the default policy, used as concrete input. -/
def demoModule : Module where
  name := "demo"
  module_type := ModuleType.Docker "docker.io/library/nginx" "latest" 8081
    (some [("MODULE_NAME", "demo"), ("MODULE_PORT", "8081")])
    (some [("/data/test", "/usr/share/nginx/html")])
    (some { test := ["CMD", "curl"], interval := 30000000000,
            timeout := 5000000000, retries := 3 })
  status := { state := ModuleState.Stopped, container_status := none,
              error := none }

/-- Backend status report for a container that has exited. -/
def exitedStatus : docker_manager.ContainerStatus where
  state := docker_manager.ContainerState.Exited
  health := none
  exit_code := some 1
  error := none

/-- Backend oracle whose status query always reports the exited container
and whose other calls succeed. -/
def exitedManager : docker_manager.ContainerManager where
  create_container := fun _ => Except.ok ()
  start_container := fun _ => Except.ok ()
  stop_container := fun _ => Except.ok ()
  remove_container := fun _ => Except.ok ()
  get_container_status := fun _ => Except.ok exitedStatus

/-- Backend oracle on which every call fails with a daemon error. -/
def failingManager : docker_manager.ContainerManager where
  create_container := fun _ => Except.error (docker_manager.DockerError.Docker "daemon unreachable")
  start_container := fun _ => Except.error (docker_manager.DockerError.Docker "daemon unreachable")
  stop_container := fun _ => Except.error (docker_manager.DockerError.Docker "daemon unreachable")
  remove_container := fun _ => Except.error (docker_manager.DockerError.Docker "daemon unreachable")
  get_container_status := fun _ => Except.error (docker_manager.DockerError.Docker "daemon unreachable")

namespace registry

theorem mapFind_mapInsert_self (m : List (String × ModuleConfig)) (k : String)
    (v : ModuleConfig) : mapFind (mapInsert m k v) k = some v := by
  induction m with
  | nil => simp [mapInsert, mapFind]
  | cons kv rest ih =>
      by_cases h : kv.1 = k
      · simp [mapInsert, h, mapFind]
      · simp [mapInsert, h, mapFind, ih]

theorem register_module_ok_state (r : LocalRegistry) (c : ModuleConfig)
    (h : mapFind r.modules c.name = none) :
    register_module r c =
      (Except.ok (), { r with modules := mapInsert r.modules c.name c }) := by
  simp [register_module, h]

theorem register_module_present (r : LocalRegistry) (c : ModuleConfig) (c₀ : ModuleConfig)
    (h : mapFind r.modules c.name = some c₀) :
    register_module r c = (Except.error (RegistryError.ModuleExists c.name), r) := by
  simp [register_module, h]

end registry

namespace ModuleVerifier

theorem verify_name_ok_iff (n : String) :
    verify_name n = Except.ok () ↔
      (n.data.all isNameChar = true ∧ 3 ≤ n.length ∧ n.length ≤ 63) := by
  unfold verify_name
  rcases hb : n.data.all isNameChar with _ | _
  · simp [hb]
  · simp only [hb, Bool.not_true, Bool.false_eq_true, if_false]
    by_cases h2 : n.length < 3 ∨ n.length > 63
    · simp [h2]
      omega
    · simp [h2]
      omega

theorem verify_name_error_shape (n : String) (er : VerificationError)
    (h : verify_name n = Except.error er) :
    ∃ s, er = VerificationError.InvalidName s := by
  unfold verify_name at h
  split at h
  · exact ⟨_, (Except.error.inj h).symm⟩
  · split at h
    · exact ⟨_, (Except.error.inj h).symm⟩
    · exact Except.noConfusion h

theorem verify_name_uppercase (n : String)
    (hup : ∃ c ∈ n.data, 65 ≤ c.toNat ∧ c.toNat ≤ 90) :
    verify_name n = Except.error (VerificationError.InvalidName
      "Name must be lowercase alphanumeric with dashes") := by
  obtain ⟨c, hc, h65, h90⟩ := hup
  have hbad : isNameChar c = false := by
    unfold isNameChar
    simp only [Bool.or_eq_false_iff, Bool.and_eq_false_iff,
      decide_eq_false_iff_not, not_le]
    omega
  have hall : n.data.all isNameChar = false := by
    rcases hres : n.data.all isNameChar with _ | _
    · rfl
    · exact absurd (List.all_eq_true.mp hres c hc) (by simp [hbad])
  unfold verify_name
  simp [hall]

theorem verify_docker_image_ok_iff (cfg : VerificationConfig) (img : String) :
    verify_docker_image cfg img = Except.ok () ↔
      ∃ hst, imageHost img = some hst ∧
        cfg.allowed_registries.contains hst = true := by
  unfold verify_docker_image
  cases hres : imageHost img with
  | none => simp
  | some hst =>
      by_cases hmem : cfg.allowed_registries.contains hst
      · simp [hmem]
      · simp [hmem]

theorem verify_docker_image_error_shape (cfg : VerificationConfig)
    (img : String) (er : VerificationError)
    (h : verify_docker_image cfg img = Except.error er) :
    ∃ s, er = VerificationError.InvalidImage s := by
  unfold verify_docker_image at h
  split at h
  · exact ⟨_, (Except.error.inj h).symm⟩
  · split at h
    · exact Except.noConfusion h
    · exact ⟨_, (Except.error.inj h).symm⟩

theorem verify_docker_image_not_allowed (cfg : VerificationConfig)
    (img hst : String) (h1 : imageHost img = some hst)
    (h2 : cfg.allowed_registries.contains hst = false) :
    verify_docker_image cfg img =
      Except.error (VerificationError.InvalidImage
        ("Registry not allowed: " ++ hst)) := by
  unfold verify_docker_image
  simp only [h1, h2, Bool.false_eq_true, if_false]

theorem verify_port_ok_iff (cfg : VerificationConfig) (p : Nat) :
    verify_port cfg p = Except.ok () ↔
      ∃ rg ∈ cfg.allowed_port_ranges, rg.1 ≤ p ∧ p ≤ rg.2 := by
  unfold verify_port
  split <;> rename_i hcond
  · simp only [List.any_eq_true, Bool.and_eq_true, decide_eq_true_eq] at hcond
    simpa using hcond
  · simp only [List.any_eq_true, Bool.and_eq_true, decide_eq_true_eq] at hcond
    constructor
    · intro habs
      exact Except.noConfusion habs
    · intro hex
      exact absurd (by simpa using hex) hcond

theorem verify_port_error_shape (cfg : VerificationConfig) (p : Nat)
    (er : VerificationError) (h : verify_port cfg p = Except.error er) :
    er = VerificationError.InvalidPort p := by
  unfold verify_port at h
  split at h
  · exact Except.noConfusion h
  · exact (Except.error.inj h).symm

theorem verify_port_cases (cfg : VerificationConfig) (p : Nat) :
    verify_port cfg p = Except.ok () ∨
    verify_port cfg p = Except.error (VerificationError.InvalidPort p) := by
  unfold verify_port
  split
  · exact Or.inl rfl
  · exact Or.inr rfl

theorem verify_env_vars_ok_iff (cfg : VerificationConfig)
    (env : Option (List (String × String))) :
    verify_env_vars cfg env = Except.ok () ↔
      ∃ vars, env = some vars ∧
        ∀ rv ∈ cfg.required_env_vars, ∃ kv ∈ vars, kv.1 = rv := by
  unfold verify_env_vars
  cases env with
  | none => simp
  | some vars =>
      cases hfind : cfg.required_env_vars.find?
          (fun v => !(vars.any (fun kv => kv.1 == v))) with
      | some rv =>
          have hmem := List.mem_of_find?_eq_some hfind
          have hpred := List.find?_some hfind
          simp only [Bool.not_eq_eq_eq_not, Bool.not_true, List.any_eq_false,
            beq_iff_eq] at hpred
          simp only [hfind, Option.some.injEq]
          constructor
          · intro habs
            exact Except.noConfusion habs
          · rintro ⟨vars2, hv2, hall⟩
            subst hv2
            obtain ⟨kv, hkv, heq⟩ := hall rv hmem
            exact absurd heq (hpred kv hkv)
      | none =>
          have hforall := List.find?_eq_none.mp hfind
          simp only [hfind, Option.some.injEq]
          constructor
          · intro _
            refine ⟨vars, rfl, fun rv hrv => ?_⟩
            have := hforall rv hrv
            simpa [List.any_eq_true] using this
          · intro _
            trivial

theorem verify_env_vars_cases (cfg : VerificationConfig)
    (env : Option (List (String × String))) :
    verify_env_vars cfg env = Except.ok () ∨
    ∃ s, verify_env_vars cfg env =
      Except.error (VerificationError.MissingEnvVar s) := by
  unfold verify_env_vars
  cases env with
  | none => exact Or.inr ⟨_, rfl⟩
  | some vars =>
      cases hfind : cfg.required_env_vars.find?
          (fun v => !(vars.any (fun kv => kv.1 == v))) with
      | some rv =>
          refine Or.inr ⟨rv, ?_⟩
          simp only [hfind]
      | none =>
          refine Or.inl ?_
          simp only [hfind]

theorem verify_env_vars_error_shape (cfg : VerificationConfig)
    (env : Option (List (String × String))) (er : VerificationError)
    (h : verify_env_vars cfg env = Except.error er) :
    ∃ s, er = VerificationError.MissingEnvVar s := by
  rcases verify_env_vars_cases cfg env with hok | ⟨s, herr⟩
  · rw [h] at hok
    exact Except.noConfusion hok
  · rw [h] at herr
    exact ⟨s, (Except.error.inj herr)⟩

theorem verify_volumes_ok_iff (cfg : VerificationConfig)
    (volumes : Option (List (String × String))) :
    verify_volumes cfg volumes = Except.ok () ↔
      ∀ vols, volumes = some vols →
        ∀ kv ∈ vols, hostPathAllowed cfg kv.1 = true := by
  unfold verify_volumes
  cases volumes with
  | none => simp
  | some vols =>
      cases hfind : vols.find? (fun kv => !hostPathAllowed cfg kv.1) with
      | some kv =>
          have hmem := List.mem_of_find?_eq_some hfind
          have hpred := List.find?_some hfind
          simp only [Bool.not_eq_eq_eq_not, Bool.not_true] at hpred
          simp only [hfind, Option.some.injEq]
          constructor
          · intro habs
            exact Except.noConfusion habs
          · intro hall
            have := hall vols rfl kv hmem
            rw [this] at hpred
            exact Bool.noConfusion hpred
      | none =>
          have hforall := List.find?_eq_none.mp hfind
          simp only [hfind, Option.some.injEq]
          constructor
          · intro _ vols2 hv2 kv hkv
            obtain rfl : vols = vols2 := hv2
            have := hforall kv hkv
            simpa using this
          · intro _
            trivial

theorem verify_volumes_cases (cfg : VerificationConfig)
    (volumes : Option (List (String × String))) :
    verify_volumes cfg volumes = Except.ok () ∨
    ∃ s, verify_volumes cfg volumes =
      Except.error (VerificationError.InvalidVolume s) := by
  unfold verify_volumes
  cases volumes with
  | none => exact Or.inl rfl
  | some vols =>
      cases hfind : vols.find? (fun kv => !hostPathAllowed cfg kv.1) with
      | some kv =>
          refine Or.inr ⟨"Path not allowed: " ++ kv.1, ?_⟩
          simp only [hfind]
      | none =>
          refine Or.inl ?_
          simp only [hfind]

theorem verify_volumes_error_shape (cfg : VerificationConfig)
    (volumes : Option (List (String × String))) (er : VerificationError)
    (h : verify_volumes cfg volumes = Except.error er) :
    ∃ s, er = VerificationError.InvalidVolume s := by
  rcases verify_volumes_cases cfg volumes with hok | ⟨s, herr⟩
  · rw [h] at hok
    exact Except.noConfusion hok
  · rw [h] at herr
    exact ⟨s, (Except.error.inj herr)⟩

theorem verify_health_check_some_ok_iff (h : docker_manager.HealthCheckConfig) :
    verify_health_check (some h) = Except.ok () ↔
      (h.test ≠ [] ∧
       1 ≤ h.interval / 1000000000 ∧ h.interval / 1000000000 ≤ 300 ∧
       1 ≤ h.timeout / 1000000000 ∧ h.timeout / 1000000000 ≤ 60 ∧
       1 ≤ h.retries ∧ h.retries ≤ 10) := by
  unfold verify_health_check
  rcases htest : h.test with _ | ⟨a, as⟩
  · simp [htest]
  · simp only [htest, List.isEmpty_cons, Bool.false_eq_true, if_false]
    by_cases h2 : h.interval / 1000000000 < 1 ∨ h.interval / 1000000000 > 300
    · rw [if_pos h2]
      refine iff_of_false (by simp) ?_
      rintro ⟨-, ha, hb, -, -, -, -⟩
      omega
    · rw [if_neg h2]
      by_cases h3 : h.timeout / 1000000000 < 1 ∨ h.timeout / 1000000000 > 60
      · rw [if_pos h3]
        refine iff_of_false (by simp) ?_
        rintro ⟨-, -, -, ha, hb, -, -⟩
        omega
      · rw [if_neg h3]
        by_cases h4 : h.retries < 1 ∨ h.retries > 10
        · rw [if_pos h4]
          refine iff_of_false (by simp) ?_
          rintro ⟨-, -, -, -, -, ha, hb⟩
          omega
        · rw [if_neg h4]
          refine iff_of_true rfl
            ⟨by simp [htest], ?_, ?_, ?_, ?_, ?_, ?_⟩ <;> omega

theorem verify_health_check_error_shape
    (hc : Option docker_manager.HealthCheckConfig) (er : VerificationError)
    (h : verify_health_check hc = Except.error er) :
    ∃ s, er = VerificationError.InvalidHealthCheck s := by
  unfold verify_health_check at h
  cases hc with
  | none => exact Except.noConfusion h
  | some hcfg =>
      dsimp only at h
      split at h
      · exact ⟨_, (Except.error.inj h).symm⟩
      · split at h
        · exact ⟨_, (Except.error.inj h).symm⟩
        · split at h
          · exact ⟨_, (Except.error.inj h).symm⟩
          · split at h
            · exact ⟨_, (Except.error.inj h).symm⟩
            · exact Except.noConfusion h

theorem verify_health_check_cases (hc : Option docker_manager.HealthCheckConfig) :
    verify_health_check hc = Except.ok () ∨
    ∃ s, verify_health_check hc =
      Except.error (VerificationError.InvalidHealthCheck s) := by
  cases hres : verify_health_check hc with
  | ok u =>
      cases u
      exact Or.inl rfl
  | error er =>
      obtain ⟨s, hs⟩ := verify_health_check_error_shape hc er hres
      exact Or.inr ⟨s, by rw [hs]⟩

theorem verify_docker_err_name (fs : String → Bool) (cfg : VerificationConfig)
    (n i t : String) (p : Nat) (e v : Option (List (String × String)))
    (hc : Option docker_manager.HealthCheckConfig) (st : ModuleStatus)
    (er : VerificationError) (h : verify_name n = Except.error er) :
    verify fs cfg
      { name := n, module_type := ModuleType.Docker i t p e v hc,
        status := st } = Except.error er := by
  unfold verify
  simp [h]

theorem verify_docker_err_image (fs : String → Bool) (cfg : VerificationConfig)
    (n i t : String) (p : Nat) (e v : Option (List (String × String)))
    (hc : Option docker_manager.HealthCheckConfig) (st : ModuleStatus)
    (er : VerificationError) (hn : verify_name n = Except.ok ())
    (h : verify_docker_image cfg i = Except.error er) :
    verify fs cfg
      { name := n, module_type := ModuleType.Docker i t p e v hc,
        status := st } = Except.error er := by
  unfold verify
  simp [hn, h]

theorem verify_docker_err_port (fs : String → Bool) (cfg : VerificationConfig)
    (n i t : String) (p : Nat) (e v : Option (List (String × String)))
    (hc : Option docker_manager.HealthCheckConfig) (st : ModuleStatus)
    (er : VerificationError) (hn : verify_name n = Except.ok ())
    (hi : verify_docker_image cfg i = Except.ok ())
    (h : verify_port cfg p = Except.error er) :
    verify fs cfg
      { name := n, module_type := ModuleType.Docker i t p e v hc,
        status := st } = Except.error er := by
  unfold verify
  simp [hn, hi, h]

theorem verify_docker_err_env (fs : String → Bool) (cfg : VerificationConfig)
    (n i t : String) (p : Nat) (e v : Option (List (String × String)))
    (hc : Option docker_manager.HealthCheckConfig) (st : ModuleStatus)
    (er : VerificationError) (hn : verify_name n = Except.ok ())
    (hi : verify_docker_image cfg i = Except.ok ())
    (hp : verify_port cfg p = Except.ok ())
    (h : verify_env_vars cfg e = Except.error er) :
    verify fs cfg
      { name := n, module_type := ModuleType.Docker i t p e v hc,
        status := st } = Except.error er := by
  unfold verify
  simp [hn, hi, hp, h]

theorem verify_docker_err_volumes (fs : String → Bool) (cfg : VerificationConfig)
    (n i t : String) (p : Nat) (e v : Option (List (String × String)))
    (hc : Option docker_manager.HealthCheckConfig) (st : ModuleStatus)
    (er : VerificationError) (hn : verify_name n = Except.ok ())
    (hi : verify_docker_image cfg i = Except.ok ())
    (hp : verify_port cfg p = Except.ok ())
    (he : verify_env_vars cfg e = Except.ok ())
    (h : verify_volumes cfg v = Except.error er) :
    verify fs cfg
      { name := n, module_type := ModuleType.Docker i t p e v hc,
        status := st } = Except.error er := by
  unfold verify
  simp [hn, hi, hp, he, h]

theorem verify_docker_health_eq (fs : String → Bool) (cfg : VerificationConfig)
    (n i t : String) (p : Nat) (e v : Option (List (String × String)))
    (hc : Option docker_manager.HealthCheckConfig) (st : ModuleStatus)
    (hn : verify_name n = Except.ok ())
    (hi : verify_docker_image cfg i = Except.ok ())
    (hp : verify_port cfg p = Except.ok ())
    (he : verify_env_vars cfg e = Except.ok ())
    (hv : verify_volumes cfg v = Except.ok ()) :
    verify fs cfg
      { name := n, module_type := ModuleType.Docker i t p e v hc,
        status := st } = verify_health_check hc := by
  unfold verify
  simp [hn, hi, hp, he, hv]

end ModuleVerifier

/-- Claim C1 counterexample: the module name "BAD" (uppercase) is rejected by
the Verifier with InvalidName, yet register_module admits a configuration of
the same name into an empty catalog and the entry is afterwards retrievable:
registration does not run the Verifier, and the rejected module has a full,
not zero, effect on the catalog. -/
theorem register_module_skips_verifier_cex :
    (ModuleVerifier.verify (fun _ => false) VerificationConfig.default
        { demoModule with name := "BAD" } =
      Except.error (VerificationError.InvalidName
        "Name must be lowercase alphanumeric with dashes")) ∧
    ((registry.register_module (registry.LocalRegistry.new "/tmp/reg")
        { name := "BAD"
          module_type := module.ModuleType.Docker "docker.io/library/nginx" "latest" 8081
          status := registry.ModuleStatus.new }).1 = Except.ok ()) ∧
    (registry.get_module
        (registry.register_module (registry.LocalRegistry.new "/tmp/reg")
          { name := "BAD"
            module_type := module.ModuleType.Docker "docker.io/library/nginx" "latest" 8081
            status := registry.ModuleStatus.new }).2 "BAD" =
      Except.ok
        { name := "BAD"
          module_type := module.ModuleType.Docker "docker.io/library/nginx" "latest" 8081
          status := registry.ModuleStatus.new }) := by
  refine ⟨by decide, by decide, by decide⟩

/-- Claim C1 (amended): LocalRegistry.register_module performs no
verification at all.  When the name is absent it succeeds and inserts the
configuration verbatim; when the name is present it fails with ModuleExists
and leaves the catalog completely unchanged.  A Verifier rejection therefore
never surfaces through register_module. -/
theorem register_module_without_verification (r : registry.LocalRegistry)
    (cfg : registry.ModuleConfig) :
    (registry.mapFind r.modules cfg.name = none →
      (registry.register_module r cfg).1 = Except.ok () ∧
      registry.get_module (registry.register_module r cfg).2 cfg.name =
        Except.ok cfg) ∧
    (∀ c₀, registry.mapFind r.modules cfg.name = some c₀ →
      registry.register_module r cfg =
        (Except.error (registry.RegistryError.ModuleExists cfg.name), r)) := by
  constructor
  · intro h
    rw [registry.register_module_ok_state r cfg h]
    constructor
    · rfl
    · simp [registry.get_module, registry.mapFind_mapInsert_self]
  · intro c₀ h
    exact registry.register_module_present r cfg c₀ h

/-- Claim C1 amended witness at a concrete input. -/
theorem register_module_without_verification_witness :
    (registry.register_module (registry.LocalRegistry.new "/tmp/reg")
        { name := "BAD"
          module_type := module.ModuleType.Docker "docker.io/library/nginx" "latest" 8081
          status := registry.ModuleStatus.new }).1 = Except.ok () :=
  ((register_module_without_verification (registry.LocalRegistry.new "/tmp/reg")
      { name := "BAD"
        module_type := module.ModuleType.Docker "docker.io/library/nginx" "latest" 8081
        status := registry.ModuleStatus.new }).1 (by decide)).1

/-- Claim C2: after a successful registration, a second registration under
the same name fails with ModuleExists carrying that name, mutates nothing,
and the entry stored by the first call is still the original configuration. -/
theorem register_module_duplicate_rejected (r r' : registry.LocalRegistry)
    (c c' : registry.ModuleConfig) (hname : c'.name = c.name)
    (hfirst : registry.register_module r c = (Except.ok (), r')) :
    registry.register_module r' c' =
      (Except.error (registry.RegistryError.ModuleExists c.name), r') ∧
    registry.get_module r' c.name = Except.ok c := by
  have hnone : registry.mapFind r.modules c.name = none := by
    by_contra hn
    cases hfind : registry.mapFind r.modules c.name with
    | none => exact hn hfind
    | some c₀ =>
        rw [registry.register_module_present r c c₀ hfind] at hfirst
        exact Except.noConfusion (congrArg Prod.fst hfirst)
  have hstate := registry.register_module_ok_state r c hnone
  rw [hstate] at hfirst
  have hr' : r' = { r with modules := registry.mapInsert r.modules c.name c } :=
    (congrArg Prod.snd hfirst).symm
  have hmem : registry.mapFind r'.modules c.name = some c := by
    rw [hr']
    exact registry.mapFind_mapInsert_self r.modules c.name c
  constructor
  · have := registry.register_module_present r' c' c (by rw [hname]; exact hmem)
    rw [this, hname]
  · simp [registry.get_module, hmem]

/-- Claim C2 witness at a concrete input. -/
theorem register_module_duplicate_rejected_witness :
    registry.register_module
        (registry.register_module (registry.LocalRegistry.new "/tmp/reg")
          { name := "demo"
            module_type := module.ModuleType.Docker "docker.io/library/nginx" "latest" 8081
            status := registry.ModuleStatus.new }).2
        { name := "demo"
          module_type := module.ModuleType.Docker "docker.io/library/nginx" "latest" 9090
          status := registry.ModuleStatus.new } =
      (Except.error (registry.RegistryError.ModuleExists "demo"),
        (registry.register_module (registry.LocalRegistry.new "/tmp/reg")
          { name := "demo"
            module_type := module.ModuleType.Docker "docker.io/library/nginx" "latest" 8081
            status := registry.ModuleStatus.new }).2) :=
  (register_module_duplicate_rejected (registry.LocalRegistry.new "/tmp/reg") _
    { name := "demo"
      module_type := module.ModuleType.Docker "docker.io/library/nginx" "latest" 8081
      status := registry.ModuleStatus.new }
    { name := "demo"
      module_type := module.ModuleType.Docker "docker.io/library/nginx" "latest" 9090
      status := registry.ModuleStatus.new }
    (by decide) (by decide)).1

/-- Claim C9: register_module imposes no validation of its own: any
configuration whose name is absent from the catalog, the empty-string name
included, is registered and afterwards retrievable under that name. -/
theorem register_module_accepts_any_name (r : registry.LocalRegistry)
    (cfg : registry.ModuleConfig)
    (h : registry.mapFind r.modules cfg.name = none) :
    (registry.register_module r cfg).1 = Except.ok () ∧
    registry.get_module (registry.register_module r cfg).2 cfg.name =
      Except.ok cfg := by
  rw [registry.register_module_ok_state r cfg h]
  exact ⟨rfl, by simp [registry.get_module, registry.mapFind_mapInsert_self]⟩

/-- Claim C9 witness: the empty-string name is accepted and retrievable. -/
theorem register_module_accepts_any_name_witness :
    (registry.register_module (registry.LocalRegistry.new "/tmp/reg")
        { name := ""
          module_type := module.ModuleType.Docker "docker.io/library/nginx" "latest" 8081
          status := registry.ModuleStatus.new }).1 = Except.ok () ∧
    registry.get_module
        (registry.register_module (registry.LocalRegistry.new "/tmp/reg")
          { name := ""
            module_type := module.ModuleType.Docker "docker.io/library/nginx" "latest" 8081
            status := registry.ModuleStatus.new }).2 "" =
      Except.ok
        { name := ""
          module_type := module.ModuleType.Docker "docker.io/library/nginx" "latest" 8081
          status := registry.ModuleStatus.new } :=
  register_module_accepts_any_name (registry.LocalRegistry.new "/tmp/reg")
    { name := ""
      module_type := module.ModuleType.Docker "docker.io/library/nginx" "latest" 8081
      status := registry.ModuleStatus.new } (by decide)

/-- Claim C10: update_module replaces the entry stored under the name
argument with the given configuration verbatim when the name is present
(so the stored configuration may carry a name differing from the key), and
returns ModuleNotFound leaving the catalog unchanged when it is absent. -/
theorem update_module_keyed_by_lookup_name (r : registry.LocalRegistry)
    (name : String) (cfg : registry.ModuleConfig) :
    (∀ c₀, registry.mapFind r.modules name = some c₀ →
      registry.update_module r name cfg =
        (Except.ok (), { r with modules := registry.mapInsert r.modules name cfg }) ∧
      registry.get_module (registry.update_module r name cfg).2 name =
        Except.ok cfg) ∧
    (registry.mapFind r.modules name = none →
      registry.update_module r name cfg =
        (Except.error (registry.RegistryError.ModuleNotFound name), r)) := by
  constructor
  · intro c₀ h
    have hst : registry.update_module r name cfg =
        (Except.ok (), { r with modules := registry.mapInsert r.modules name cfg }) := by
      simp [registry.update_module, h]
    refine ⟨hst, ?_⟩
    rw [hst]
    simp [registry.get_module, registry.mapFind_mapInsert_self]
  · intro h
    simp [registry.update_module, h]

/-- Claim C10 witness: after update_module with a configuration whose own
name field is "other", lookup under the original key "demo" returns a
configuration whose name field differs from the lookup key. -/
theorem update_module_keyed_by_lookup_name_witness :
    registry.get_module
        (registry.update_module
          (registry.register_module (registry.LocalRegistry.new "/tmp/reg")
            { name := "demo"
              module_type := module.ModuleType.Docker "docker.io/library/nginx" "latest" 8081
              status := registry.ModuleStatus.new }).2
          "demo"
          { name := "other"
            module_type := module.ModuleType.Docker "ghcr.io/acme/app" "v2" 9090
            status := registry.ModuleStatus.new }).2 "demo" =
      Except.ok
        { name := "other"
          module_type := module.ModuleType.Docker "ghcr.io/acme/app" "v2" 9090
          status := registry.ModuleStatus.new } ∧
    ("other" : String) ≠ "demo" :=
  ⟨((update_module_keyed_by_lookup_name
      (registry.register_module (registry.LocalRegistry.new "/tmp/reg")
        { name := "demo"
          module_type := module.ModuleType.Docker "docker.io/library/nginx" "latest" 8081
          status := registry.ModuleStatus.new }).2
      "demo"
      { name := "other"
        module_type := module.ModuleType.Docker "ghcr.io/acme/app" "v2" 9090
        status := registry.ModuleStatus.new }).1
    { name := "demo"
      module_type := module.ModuleType.Docker "docker.io/library/nginx" "latest" 8081
      status := registry.ModuleStatus.new } (by decide)).2, by decide⟩

/-- Claim C7 counterexample: get_module_status is a pure read of the stored
status field.  A catalog whose stored entry says Running reports Running,
although the only backend in scope reports an exited container, which the
runtime translation (the live query the claim describes) would turn into
Failed: the two observations disagree, so get_module_status does not
delegate to a runtime status query. -/
theorem get_module_status_stored_cex :
    registry.get_module_status
        (registry.register_module (registry.LocalRegistry.new "/tmp/reg")
          { name := "demo"
            module_type := module.ModuleType.Docker "docker.io/library/nginx" "latest" 8081
            status := { state := registry.ModuleState.Running, last_error := none,
                        uptime := none } }).2 "demo" =
      Except.ok { state := registry.ModuleState.Running, last_error := none,
                  uptime := none } ∧
    DockerModuleRuntime.status { module := demoModule, manager := exitedManager } =
      Except.ok { state := ModuleState.Failed, container_status := some exitedStatus,
                  error := none } := by
  refine ⟨by decide, rfl⟩

/-- Claim C7 (amended): get_module_status(name) returns the status field of
the catalog entry stored under name, with no runtime or backend involvement,
and ModuleNotFound when the name is not registered. -/
theorem get_module_status_reads_catalog (r : registry.LocalRegistry)
    (name : String) :
    (∀ c, registry.mapFind r.modules name = some c →
      registry.get_module_status r name = Except.ok c.status) ∧
    (registry.mapFind r.modules name = none →
      registry.get_module_status r name =
        Except.error (registry.RegistryError.ModuleNotFound name)) := by
  constructor
  · intro c h
    simp [registry.get_module_status, registry.get_module, h]
  · intro h
    simp [registry.get_module_status, registry.get_module, h]

/-- Claim C7 amended witness at a concrete input. -/
theorem get_module_status_reads_catalog_witness :
    registry.get_module_status (registry.LocalRegistry.new "/tmp/reg") "demo" =
      Except.error (registry.RegistryError.ModuleNotFound "demo") :=
  (get_module_status_reads_catalog (registry.LocalRegistry.new "/tmp/reg") "demo").2
    (by decide)

/-- Claim C8 counterexample: on a backend where both the stop call and the
remove call fail, stop() still reports success: the primary stop operation
hides backend errors from its caller. -/
theorem stop_ignores_backend_errors_cex :
    failingManager.stop_container "demo" =
      Except.error (docker_manager.DockerError.Docker "daemon unreachable") ∧
    failingManager.remove_container "demo" =
      Except.error (docker_manager.DockerError.Docker "daemon unreachable") ∧
    DockerModuleRuntime.stop { module := demoModule, manager := failingManager } =
      Except.ok () :=
  ⟨rfl, rfl, rfl⟩

/-- Claim C8 (amended): stop() issues the stop-then-remove sequence but
discards the result of both backend calls and returns success
unconditionally, for every module and every backend behaviour. -/
theorem stop_always_ok (rt : DockerModuleRuntime) :
    DockerModuleRuntime.stop rt = Except.ok () := rfl

/-- Claim C3: with a constructed runtime, status() translates the backend
container state into the module lifecycle state exactly as Running to
Running, Exited and Dead to Failed, and every other state to Stopped, and a
failing backend status query propagates as an error. -/
theorem docker_status_translation (mgr : docker_manager.ContainerManager)
    (m : Module) :
    (∀ cs, mgr.get_container_status m.name = Except.ok cs →
      (cs.state = docker_manager.ContainerState.Running →
        DockerModuleRuntime.status { module := m, manager := mgr } =
          Except.ok { state := ModuleState.Running, container_status := some cs,
                      error := none }) ∧
      ((cs.state = docker_manager.ContainerState.Exited ∨
        cs.state = docker_manager.ContainerState.Dead) →
        DockerModuleRuntime.status { module := m, manager := mgr } =
          Except.ok { state := ModuleState.Failed, container_status := some cs,
                      error := none }) ∧
      ((cs.state = docker_manager.ContainerState.Created ∨
        cs.state = docker_manager.ContainerState.Paused ∨
        cs.state = docker_manager.ContainerState.Restarting ∨
        cs.state = docker_manager.ContainerState.Removing) →
        DockerModuleRuntime.status { module := m, manager := mgr } =
          Except.ok { state := ModuleState.Stopped, container_status := some cs,
                      error := none })) ∧
    (∀ e, mgr.get_container_status m.name = Except.error e →
      DockerModuleRuntime.status { module := m, manager := mgr } =
        Except.error (DockerRuntimeError.Docker e)) := by
  constructor
  · intro cs h
    refine ⟨?_, ?_, ?_⟩
    · intro hs; simp [DockerModuleRuntime.status, h, hs]
    · rintro (hs | hs) <;> simp [DockerModuleRuntime.status, h, hs]
    · rintro (hs | hs | hs | hs) <;> simp [DockerModuleRuntime.status, h, hs]
  · intro e h
    simp [DockerModuleRuntime.status, h]

/-- Claim C3 witness: a backend reporting an exited container yields the
Failed lifecycle state. -/
theorem docker_status_translation_witness :
    DockerModuleRuntime.status { module := demoModule, manager := exitedManager } =
      Except.ok { state := ModuleState.Failed, container_status := some exitedStatus,
                  error := none } :=
  ((docker_status_translation exitedManager demoModule).1 exitedStatus rfl).2.1
    (Or.inl rfl)

/-- Claim C4: a Docker module passing every check of the default policy is
accepted by verify, and each single-field mutation that violates exactly one
policy rule (uppercase letters in the name, registry host outside the
allowed set, port below 1024, a required environment variable missing, a
volume host path outside the allowed roots, a health check with zero
interval) yields exactly the corresponding error variant. -/
theorem verify_default_policy_mutations (fs : String → Bool) (n i t : String)
    (p : Nat) (e v : Option (List (String × String)))
    (hc : Option docker_manager.HealthCheckConfig) (st : ModuleStatus)
    (hn : ModuleVerifier.verify_name n = Except.ok ())
    (hi : ModuleVerifier.verify_docker_image VerificationConfig.default i = Except.ok ())
    (hp : ModuleVerifier.verify_port VerificationConfig.default p = Except.ok ())
    (he : ModuleVerifier.verify_env_vars VerificationConfig.default e = Except.ok ())
    (hv : ModuleVerifier.verify_volumes VerificationConfig.default v = Except.ok ())
    (hh : ModuleVerifier.verify_health_check hc = Except.ok ()) :
    (ModuleVerifier.verify fs VerificationConfig.default
      { name := n, module_type := ModuleType.Docker i t p e v hc,
        status := st } = Except.ok ()) ∧
    (∀ n2, (∃ c ∈ n2.data, 65 ≤ c.toNat ∧ c.toNat ≤ 90) →
      ∃ s, ModuleVerifier.verify fs VerificationConfig.default
        { name := n2, module_type := ModuleType.Docker i t p e v hc,
          status := st } = Except.error (VerificationError.InvalidName s)) ∧
    (∀ i2 hst, ModuleVerifier.imageHost i2 = some hst →
      VerificationConfig.default.allowed_registries.contains hst = false →
      ∃ s, ModuleVerifier.verify fs VerificationConfig.default
        { name := n, module_type := ModuleType.Docker i2 t p e v hc,
          status := st } = Except.error (VerificationError.InvalidImage s)) ∧
    (∀ p2, p2 < 1024 →
      ModuleVerifier.verify fs VerificationConfig.default
        { name := n, module_type := ModuleType.Docker i t p2 e v hc,
          status := st } = Except.error (VerificationError.InvalidPort p2)) ∧
    (∀ vars rv, rv ∈ VerificationConfig.default.required_env_vars →
      (∀ kv ∈ vars, kv.1 ≠ rv) →
      ∃ s, ModuleVerifier.verify fs VerificationConfig.default
        { name := n, module_type := ModuleType.Docker i t p (some vars) v hc,
          status := st } = Except.error (VerificationError.MissingEnvVar s)) ∧
    (∀ vols kv, kv ∈ vols →
      ModuleVerifier.hostPathAllowed VerificationConfig.default kv.1 = false →
      ∃ s, ModuleVerifier.verify fs VerificationConfig.default
        { name := n, module_type := ModuleType.Docker i t p e (some vols) hc,
          status := st } = Except.error (VerificationError.InvalidVolume s)) ∧
    (∀ hcfg : docker_manager.HealthCheckConfig, hcfg.interval = 0 →
      ∃ s, ModuleVerifier.verify fs VerificationConfig.default
        { name := n, module_type := ModuleType.Docker i t p e v (some hcfg),
          status := st } =
        Except.error (VerificationError.InvalidHealthCheck s)) := by
  refine ⟨?_, ?_, ?_, ?_, ?_, ?_, ?_⟩
  · rw [ModuleVerifier.verify_docker_health_eq fs VerificationConfig.default
      n i t p e v hc st hn hi hp he hv]
    exact hh
  · intro n2 hup
    exact ⟨_, ModuleVerifier.verify_docker_err_name fs VerificationConfig.default
      n2 i t p e v hc st _ (ModuleVerifier.verify_name_uppercase n2 hup)⟩
  · intro i2 hst h1 h2
    exact ⟨_, ModuleVerifier.verify_docker_err_image fs VerificationConfig.default
      n i2 t p e v hc st _ hn
      (ModuleVerifier.verify_docker_image_not_allowed VerificationConfig.default
        i2 hst h1 h2)⟩
  · intro p2 hp2
    have hport : ModuleVerifier.verify_port VerificationConfig.default p2 =
        Except.error (VerificationError.InvalidPort p2) := by
      rcases ModuleVerifier.verify_port_cases VerificationConfig.default p2 with
        hok | herr
      · exfalso
        obtain ⟨rg, hrg, hle, hge⟩ :=
          (ModuleVerifier.verify_port_ok_iff VerificationConfig.default p2).mp hok
        have hrg2 : rg = (1024, 65535) := by
          simpa [VerificationConfig.default] using hrg
        subst hrg2
        simp at hle
        omega
      · exact herr
    exact ModuleVerifier.verify_docker_err_port fs VerificationConfig.default
      n i t p2 e v hc st _ hn hi hport
  · intro vars rv hrv hmiss
    have henv : ∃ s, ModuleVerifier.verify_env_vars VerificationConfig.default
        (some vars) = Except.error (VerificationError.MissingEnvVar s) := by
      rcases ModuleVerifier.verify_env_vars_cases VerificationConfig.default
        (some vars) with hok | hex
      · exfalso
        obtain ⟨vars2, hv2, hall⟩ :=
          (ModuleVerifier.verify_env_vars_ok_iff VerificationConfig.default
            (some vars)).mp hok
        obtain rfl : vars = vars2 := Option.some.inj hv2
        obtain ⟨kv, hkv, heq⟩ := hall rv hrv
        exact hmiss kv hkv heq
      · exact hex
    obtain ⟨s, hs⟩ := henv
    exact ⟨s, ModuleVerifier.verify_docker_err_env fs VerificationConfig.default
      n i t p (some vars) v hc st _ hn hi hp hs⟩
  · intro vols kv hkv hbadpath
    have hvol : ∃ s, ModuleVerifier.verify_volumes VerificationConfig.default
        (some vols) = Except.error (VerificationError.InvalidVolume s) := by
      rcases ModuleVerifier.verify_volumes_cases VerificationConfig.default
        (some vols) with hok | hex
      · exfalso
        have hall := (ModuleVerifier.verify_volumes_ok_iff VerificationConfig.default
          (some vols)).mp hok
        have := hall vols rfl kv hkv
        rw [this] at hbadpath
        exact Bool.noConfusion hbadpath
      · exact hex
    obtain ⟨s, hs⟩ := hvol
    exact ⟨s, ModuleVerifier.verify_docker_err_volumes fs VerificationConfig.default
      n i t p e (some vols) hc st _ hn hi hp he hs⟩
  · intro hcfg h0
    have hhc : ∃ s, ModuleVerifier.verify_health_check (some hcfg) =
        Except.error (VerificationError.InvalidHealthCheck s) := by
      rcases ModuleVerifier.verify_health_check_cases (some hcfg) with hok | hex
      · exfalso
        obtain ⟨-, h1le, -, -, -, -, -⟩ :=
          (ModuleVerifier.verify_health_check_some_ok_iff hcfg).mp hok
        omega
      · exact hex
    obtain ⟨s, hs⟩ := hhc
    have heq := ModuleVerifier.verify_docker_health_eq fs VerificationConfig.default
      n i t p e v (some hcfg) st hn hi hp he hv
    exact ⟨s, by rw [heq, hs]⟩

/-- Claim C4 witness at concrete inputs: the demo module is accepted, the
uppercase-name mutation yields InvalidName, and the port-80 mutation yields
InvalidPort 80. -/
theorem verify_default_policy_mutations_witness :
    ModuleVerifier.verify (fun _ => false) VerificationConfig.default demoModule =
      Except.ok () ∧
    (∃ s, ModuleVerifier.verify (fun _ => false) VerificationConfig.default
      { demoModule with name := "DEMO" } =
      Except.error (VerificationError.InvalidName s)) ∧
    ModuleVerifier.verify (fun _ => false) VerificationConfig.default
      { demoModule with module_type := (ModuleType.Docker
          "docker.io/library/nginx" "latest" 80
          (some [("MODULE_NAME", "demo"), ("MODULE_PORT", "8081")])
          (some [("/data/test", "/usr/share/nginx/html")])
          (some { test := ["CMD", "curl"], interval := 30000000000,
                  timeout := 5000000000, retries := 3 })) } =
      Except.error (VerificationError.InvalidPort 80) := by
  have h := verify_default_policy_mutations (fun _ => false) "demo"
    "docker.io/library/nginx" "latest" 8081
    (some [("MODULE_NAME", "demo"), ("MODULE_PORT", "8081")])
    (some [("/data/test", "/usr/share/nginx/html")])
    (some { test := ["CMD", "curl"], interval := 30000000000,
            timeout := 5000000000, retries := 3 })
    { state := ModuleState.Stopped, container_status := none, error := none }
    (by decide) (by decide) (by decide) (by decide) (by decide) (by decide)
  exact ⟨h.1, h.2.1 "DEMO" (by decide), h.2.2.2.1 80 (by decide)⟩

/-- Claim C5: verify runs the checks in the fixed order name, image, port,
environment variables, volumes, health check; the first failing check alone
determines the returned error, which is of the corresponding variant. -/
theorem verify_first_failing_check (fs : String → Bool)
    (cfg : VerificationConfig) (n i t : String) (p : Nat)
    (e v : Option (List (String × String)))
    (hc : Option docker_manager.HealthCheckConfig) (st : ModuleStatus) :
    (∀ er, ModuleVerifier.verify_name n = Except.error er →
      ModuleVerifier.verify fs cfg
        { name := n, module_type := ModuleType.Docker i t p e v hc,
          status := st } = Except.error er ∧
      ∃ s, er = VerificationError.InvalidName s) ∧
    (ModuleVerifier.verify_name n = Except.ok () →
      ∀ er, ModuleVerifier.verify_docker_image cfg i = Except.error er →
      ModuleVerifier.verify fs cfg
        { name := n, module_type := ModuleType.Docker i t p e v hc,
          status := st } = Except.error er ∧
      ∃ s, er = VerificationError.InvalidImage s) ∧
    (ModuleVerifier.verify_name n = Except.ok () →
      ModuleVerifier.verify_docker_image cfg i = Except.ok () →
      ∀ er, ModuleVerifier.verify_port cfg p = Except.error er →
      ModuleVerifier.verify fs cfg
        { name := n, module_type := ModuleType.Docker i t p e v hc,
          status := st } = Except.error er ∧
      er = VerificationError.InvalidPort p) ∧
    (ModuleVerifier.verify_name n = Except.ok () →
      ModuleVerifier.verify_docker_image cfg i = Except.ok () →
      ModuleVerifier.verify_port cfg p = Except.ok () →
      ∀ er, ModuleVerifier.verify_env_vars cfg e = Except.error er →
      ModuleVerifier.verify fs cfg
        { name := n, module_type := ModuleType.Docker i t p e v hc,
          status := st } = Except.error er ∧
      ∃ s, er = VerificationError.MissingEnvVar s) ∧
    (ModuleVerifier.verify_name n = Except.ok () →
      ModuleVerifier.verify_docker_image cfg i = Except.ok () →
      ModuleVerifier.verify_port cfg p = Except.ok () →
      ModuleVerifier.verify_env_vars cfg e = Except.ok () →
      ∀ er, ModuleVerifier.verify_volumes cfg v = Except.error er →
      ModuleVerifier.verify fs cfg
        { name := n, module_type := ModuleType.Docker i t p e v hc,
          status := st } = Except.error er ∧
      ∃ s, er = VerificationError.InvalidVolume s) ∧
    (ModuleVerifier.verify_name n = Except.ok () →
      ModuleVerifier.verify_docker_image cfg i = Except.ok () →
      ModuleVerifier.verify_port cfg p = Except.ok () →
      ModuleVerifier.verify_env_vars cfg e = Except.ok () →
      ModuleVerifier.verify_volumes cfg v = Except.ok () →
      ∀ er, ModuleVerifier.verify_health_check hc = Except.error er →
      ModuleVerifier.verify fs cfg
        { name := n, module_type := ModuleType.Docker i t p e v hc,
          status := st } = Except.error er ∧
      ∃ s, er = VerificationError.InvalidHealthCheck s) := by
  refine ⟨?_, ?_, ?_, ?_, ?_, ?_⟩
  · intro er her
    exact ⟨ModuleVerifier.verify_docker_err_name fs cfg n i t p e v hc st er her,
      ModuleVerifier.verify_name_error_shape n er her⟩
  · intro hn er her
    exact ⟨ModuleVerifier.verify_docker_err_image fs cfg n i t p e v hc st er hn her,
      ModuleVerifier.verify_docker_image_error_shape cfg i er her⟩
  · intro hn hi er her
    exact ⟨ModuleVerifier.verify_docker_err_port fs cfg n i t p e v hc st er hn hi her,
      ModuleVerifier.verify_port_error_shape cfg p er her⟩
  · intro hn hi hp er her
    exact ⟨ModuleVerifier.verify_docker_err_env fs cfg n i t p e v hc st er
      hn hi hp her,
      ModuleVerifier.verify_env_vars_error_shape cfg e er her⟩
  · intro hn hi hp he er her
    exact ⟨ModuleVerifier.verify_docker_err_volumes fs cfg n i t p e v hc st er
      hn hi hp he her,
      ModuleVerifier.verify_volumes_error_shape cfg v er her⟩
  · intro hn hi hp he hv er her
    refine ⟨?_, ModuleVerifier.verify_health_check_error_shape hc er her⟩
    rw [ModuleVerifier.verify_docker_health_eq fs cfg n i t p e v hc st
      hn hi hp he hv]
    exact her

/-- Claim C5 witness: a module with an invalid (uppercase) name and an
out-of-range port 80 is rejected with InvalidName, not InvalidPort, even
though the port check alone would also fail. -/
theorem verify_first_failing_check_witness :
    ModuleVerifier.verify_port VerificationConfig.default 80 =
      Except.error (VerificationError.InvalidPort 80) ∧
    ModuleVerifier.verify (fun _ => false) VerificationConfig.default
      { name := "BAD", module_type := ModuleType.Docker
          "docker.io/library/nginx" "latest" 80
          (some [("MODULE_NAME", "demo"), ("MODULE_PORT", "8081")]) none none,
        status := { state := ModuleState.Stopped, container_status := none,
                    error := none } } =
      Except.error (VerificationError.InvalidName
        "Name must be lowercase alphanumeric with dashes") :=
  ⟨by decide,
    ((verify_first_failing_check (fun _ => false) VerificationConfig.default
      "BAD" "docker.io/library/nginx" "latest" 80
      (some [("MODULE_NAME", "demo"), ("MODULE_PORT", "8081")]) none none
      { state := ModuleState.Stopped, container_status := none,
        error := none }).1 _ (by decide)).1⟩

/-- Claim C6: for a Docker module passing the name, image, port, env and
volume checks whose health check is present, verify fails with
InvalidHealthCheck exactly when the test command list is empty, or the
interval converted from nanoseconds to seconds lies outside 1..300, or the
timeout so converted lies outside 1..60, or retries lies outside 1..10;
otherwise verify succeeds. -/
theorem verify_health_bounds (fs : String → Bool) (cfg : VerificationConfig)
    (n i t : String) (p : Nat) (e v : Option (List (String × String)))
    (hcfg : docker_manager.HealthCheckConfig) (st : ModuleStatus)
    (hn : ModuleVerifier.verify_name n = Except.ok ())
    (hi : ModuleVerifier.verify_docker_image cfg i = Except.ok ())
    (hp : ModuleVerifier.verify_port cfg p = Except.ok ())
    (he : ModuleVerifier.verify_env_vars cfg e = Except.ok ())
    (hv : ModuleVerifier.verify_volumes cfg v = Except.ok ()) :
    ((∃ s, ModuleVerifier.verify fs cfg
      { name := n, module_type := ModuleType.Docker i t p e v (some hcfg),
        status := st } =
      Except.error (VerificationError.InvalidHealthCheck s)) ↔
      (hcfg.test = [] ∨
       hcfg.interval / 1000000000 < 1 ∨ hcfg.interval / 1000000000 > 300 ∨
       hcfg.timeout / 1000000000 < 1 ∨ hcfg.timeout / 1000000000 > 60 ∨
       hcfg.retries < 1 ∨ hcfg.retries > 10)) ∧
    (ModuleVerifier.verify fs cfg
      { name := n, module_type := ModuleType.Docker i t p e v (some hcfg),
        status := st } = Except.ok () ↔
      ¬(hcfg.test = [] ∨
        hcfg.interval / 1000000000 < 1 ∨ hcfg.interval / 1000000000 > 300 ∨
        hcfg.timeout / 1000000000 < 1 ∨ hcfg.timeout / 1000000000 > 60 ∨
        hcfg.retries < 1 ∨ hcfg.retries > 10)) := by
  have heq := ModuleVerifier.verify_docker_health_eq fs cfg n i t p e v
    (some hcfg) st hn hi hp he hv
  have hokiff := ModuleVerifier.verify_health_check_some_ok_iff hcfg
  constructor
  · simp only [heq]
    constructor
    · rintro ⟨s, hs⟩
      by_contra hbad
      push_neg at hbad
      have hok : ModuleVerifier.verify_health_check (some hcfg) = Except.ok () :=
        hokiff.mpr ⟨hbad.1, hbad.2.1, hbad.2.2.1, hbad.2.2.2.1,
          hbad.2.2.2.2.1, hbad.2.2.2.2.2.1, hbad.2.2.2.2.2.2⟩
      rw [hs] at hok
      exact Except.noConfusion hok
    · intro hbad
      rcases ModuleVerifier.verify_health_check_cases (some hcfg) with hok | hex
      · exfalso
        obtain ⟨g1, g2, g3, g4, g5, g6, g7⟩ := hokiff.mp hok
        rcases hbad with hb | hb | hb | hb | hb | hb | hb
        · exact g1 hb
        all_goals omega
      · exact hex
  · rw [heq, hokiff]
    constructor
    · rintro ⟨g1, g2, g3, g4, g5, g6, g7⟩ (hb | hb | hb | hb | hb | hb | hb)
      · exact g1 hb
      all_goals omega
    · intro hbad
      push_neg at hbad
      exact ⟨hbad.1, hbad.2.1, hbad.2.2.1, hbad.2.2.2.1,
        hbad.2.2.2.2.1, hbad.2.2.2.2.2.1, hbad.2.2.2.2.2.2⟩

/-- Claim C6 witness: a zero-interval health check is rejected with
InvalidHealthCheck while the 30-second health check of the demo module is
accepted. -/
theorem verify_health_bounds_witness :
    (∃ s, ModuleVerifier.verify (fun _ => false) VerificationConfig.default
      { name := "demo", module_type := ModuleType.Docker
          "docker.io/library/nginx" "latest" 8081
          (some [("MODULE_NAME", "demo"), ("MODULE_PORT", "8081")])
          (some [("/data/test", "/usr/share/nginx/html")])
          (some { test := ["CMD", "curl"], interval := 0,
                  timeout := 5000000000, retries := 3 }),
        status := { state := ModuleState.Stopped, container_status := none,
                    error := none } } =
      Except.error (VerificationError.InvalidHealthCheck s)) ∧
    ModuleVerifier.verify (fun _ => false) VerificationConfig.default demoModule =
      Except.ok () := by
  have h1 := verify_health_bounds (fun _ => false) VerificationConfig.default
    "demo" "docker.io/library/nginx" "latest" 8081
    (some [("MODULE_NAME", "demo"), ("MODULE_PORT", "8081")])
    (some [("/data/test", "/usr/share/nginx/html")])
    { test := ["CMD", "curl"], interval := 0, timeout := 5000000000, retries := 3 }
    { state := ModuleState.Stopped, container_status := none, error := none }
    (by decide) (by decide) (by decide) (by decide) (by decide)
  have h2 := verify_health_bounds (fun _ => false) VerificationConfig.default
    "demo" "docker.io/library/nginx" "latest" 8081
    (some [("MODULE_NAME", "demo"), ("MODULE_PORT", "8081")])
    (some [("/data/test", "/usr/share/nginx/html")])
    { test := ["CMD", "curl"], interval := 30000000000, timeout := 5000000000,
      retries := 3 }
    { state := ModuleState.Stopped, container_status := none, error := none }
    (by decide) (by decide) (by decide) (by decide) (by decide)
  exact ⟨h1.1.mpr (Or.inr (Or.inl (by decide))), h2.2.mpr (by decide)⟩

end registrar
